import Mathlib

/-!
# Verification of the NCAAB totals dashboard (src/app.py)

A shallow embedding of the arithmetic core of the dashboard: the math
helpers (normal cdf, implied probability, Kelly sizing), the slate-wide
mean-alignment calibration, the CLV (closing-line-value) confirmation
filter with its pandas indexing semantics, the BET/PASS gate, the bet
grading and ROI bookkeeping, and the adaptive model/market weight update.
Python floats are embedded as exact rationals where the operations are
field arithmetic, and as reals where the error function is involved.
-/

/- ====================================================================
   Math helpers (src/app.py lines 63-77)
   ==================================================================== -/

/-- The Gauss error function, the mathematical function computed by
Python's math.erf used in normal_cdf. -/
noncomputable def erf (x : ℝ) : ℝ :=
  2 / Real.sqrt Real.pi * ∫ t in (0:ℝ)..x, Real.exp (-(t ^ 2))

/-- `normal_cdf(x) = (1 + erf(x / sqrt(2))) / 2` (line 63-64). -/
noncomputable def normal_cdf (x : ℝ) : ℝ :=
  (1 + erf (x / Real.sqrt 2)) / 2

/-- `ODDS = -110` (line 25), the fixed American price used throughout. -/
def ODDS : ℝ := -110

/-- `implied_prob(odds) = abs(odds) / (abs(odds) + 100)` (lines 66-67). -/
noncomputable def implied_prob (odds : ℝ) : ℝ := |odds| / (|odds| + 100)

/-- `prob_over(line, proj, std) = 1 - normal_cdf((line - proj)/std)`
(lines 69-70). -/
noncomputable def prob_over (line proj std : ℝ) : ℝ :=
  1 - normal_cdf ((line - proj) / std)

/-- `prob_under(line, proj, std) = normal_cdf((line - proj)/std)`
(lines 72-73). -/
noncomputable def prob_under (line proj std : ℝ) : ℝ :=
  normal_cdf ((line - proj) / std)

/-- `kelly(p, odds) = max((p*b - (1-p))/b, 0)` with `b = 100/abs(odds)`
(lines 75-77). -/
noncomputable def kelly (p odds : ℝ) : ℝ :=
  let b := 100 / |odds|
  max ((p * b - (1 - p)) / b) 0

/-- `Kelly_% = kelly(p, ODDS) * 100` (line 182). -/
noncomputable def kelly_pct (p : ℝ) : ℝ := kelly p ODDS * 100

/-- `Edge = (Prob - implied_prob(ODDS)) * 100` (line 181). -/
noncomputable def edge_of (prob : ℝ) : ℝ := (prob - implied_prob ODDS) * 100

/- ====================================================================
   Side selection and reported probability (lines 179-180)
   ==================================================================== -/

/-- `Side = np.where(Prob_Over > Prob_Under, "OVER", "UNDER")` (line 179). -/
noncomputable def chooseSide (po pu : ℝ) : String :=
  if pu < po then "OVER" else "UNDER"

/-- `Prob = max(Prob_Over, Prob_Under)` (line 180, row-wise max). -/
noncomputable def reportedProb (po pu : ℝ) : ℝ := max po pu

/- ====================================================================
   Mean-alignment calibration (line 166)
   ==================================================================== -/

/-- Column mean, `Series.mean()` on an exact-rational embedding. -/
def slateMean (xs : List ℚ) : ℚ := xs.sum / xs.length

/-- Line 166: `df["Projection"] -= (df.Projection.mean() - df.Market_Total.mean())`.
A slate row is a pair (projection, market total); every projection is
shifted by the slate-wide bias. -/
def calibrate (slate : List (ℚ × ℚ)) : List (ℚ × ℚ) :=
  let bias := slateMean (slate.map Prod.fst) - slateMean (slate.map Prod.snd)
  slate.map (fun r => (r.1 - bias, r.2))

/- ====================================================================
   BET/PASS gate (lines 204-210)
   ==================================================================== -/

/-- Lines 207-210: `bets = df[(df.Prob*100 >= min_prob) & (df.Edge >= min_edge)]`,
applied to rows carrying (Prob, Edge). -/
noncomputable def betsFilter (rows : List (ℝ × ℝ)) (minP minE : ℝ) :
    List (ℝ × ℝ) :=
  rows.filter (fun r => decide (r.1 * 100 ≥ minP ∧ r.2 ≥ minE))

/-- Stated from the claim's words, for comparison with the code's filter:
qualified iff `probability × 100 ≥ min_probability` and `|edge| ≥ min_edge`. -/
def claimedBetGate (prob edge minP minE : ℝ) : Prop :=
  prob * 100 ≥ minP ∧ |edge| ≥ minE

/- ====================================================================
   Python round(x, n): round-half-to-even on exact rationals
   ==================================================================== -/

/-- Round to the nearest integer, ties to even (Python's built-in round). -/
def roundHalfEven (x : ℚ) : ℤ :=
  let f : ℤ := ⌊x⌋
  let r : ℚ := x - f
  if r < 1/2 then f
  else if 1/2 < r then f + 1
  else if f % 2 = 0 then f else f + 1

/-- Python `round(x, n)` on an exact-rational embedding of the float. -/
def pyRound (x : ℚ) (n : ℕ) : ℚ := (roundHalfEven (x * 10 ^ n) : ℚ) / 10 ^ n

/- ====================================================================
   Bet log rows, grading (lines 36-40, 230-246) and performance
   (lines 253-260, 274-278)
   ==================================================================== -/

/-- One row of `bet_log`: columns Game, Side, Open_Line, Prob, Edge,
Units, Result (lines 37-40; Close_Line is always written as None and
Date is a timestamp, both irrelevant to the claims). -/
structure BetRow where
  game : String
  side : String
  open_line : ℚ
  prob : ℚ
  edge : ℚ
  units : ℚ
  result : String
deriving DecidableEq, Repr

/-- Line 234: `units = round(BANKROLL * Kelly_% / 100 / 100, 2)` with
`BANKROLL = 1000`; the stake, in units, risked on a displayed row. -/
def stake_units (kp : ℚ) : ℚ := pyRound (1000 * kp / 100 / 100) 2

/-- Lines 236-240: the WIN button appends a row with Units = stake*0.91
and Result = "W". -/
def log_win (log : List BetRow) (g s : String) (line prob edge stake : ℚ) :
    List BetRow :=
  log ++ [⟨g, s, line, prob, edge, stake * (91/100), "W"⟩]

/-- Lines 242-246: the LOSS button appends a row with Units = -stake
and Result = "L". -/
def log_loss (log : List BetRow) (g s : String) (line prob edge stake : ℚ) :
    List BetRow :=
  log ++ [⟨g, s, line, prob, edge, -stake, "L"⟩]

/-- Line 255: `total = len(bet_log)`. -/
def total_bets (log : List BetRow) : ℕ := log.length

/-- Line 256: `wins = (bet_log.Result=="W").sum()`. -/
def wins_count (log : List BetRow) : ℕ :=
  (log.filter (fun r => r.result == "W")).length

/-- Line 257: `units = bet_log.Units.sum()`. -/
def units_sum (log : List BetRow) : ℚ := (log.map BetRow.units).sum

/-- Line 259: `roi = (units/total*100) if total else 0`. -/
def roi (log : List BetRow) : ℚ :=
  if total_bets log = 0 then 0 else units_sum log / total_bets log * 100

/-- Line 260: `win_pct = (wins/total*100) if total else 0`. -/
def win_pct (log : List BetRow) : ℚ :=
  if total_bets log = 0 then 0
  else (wins_count log : ℚ) / total_bets log * 100

/-- Line 278: the ROI % metric is displayed as `round(roi, 2)`. -/
def roi_display (log : List BetRow) : ℚ := pyRound (roi log) 2

/-- Line 276: the Win % metric is displayed as `round(win_pct, 1)`. -/
def win_pct_display (log : List BetRow) : ℚ := pyRound (win_pct log) 1

/- ====================================================================
   Adaptive model/market weights (lines 47-51, 262-272)
   ==================================================================== -/

/-- Lines 48-51: the weights file is initialized to
`{model_weight: 0.6, market_weight: 0.4}`. -/
def initial_weights : ℚ × ℚ := (6/10, 4/10)

/-- Lines 263-266: `MODEL_WEIGHT = max(MODEL_WEIGHT - 0.05, 0.4)` when
`roi < 0`, else `min(MODEL_WEIGHT + 0.05, 0.75)`. -/
def adjust_model_weight (r w : ℚ) : ℚ :=
  if r < 0 then max (w - 5/100) (4/10) else min (w + 5/100) (75/100)

/-- Lines 262-272: when `total >= 50` the adjusted pair
`(MODEL_WEIGHT, 1 - MODEL_WEIGHT)` is written back to the weights file;
otherwise nothing is written (`none`). -/
def weight_update (total : ℕ) (r w : ℚ) : Option (ℚ × ℚ) :=
  if 50 ≤ total then
    some (adjust_model_weight r w, 1 - adjust_model_weight r w)
  else none

/- ====================================================================
   CLV tracking (lines 187-199)

   `line_history` is a DataFrame with columns Game, Line (and Time) and
   a default integer row index.  Line 193 computes
   `clv = line_history.groupby("Game").Line.diff()`: a group-wise diff
   that keeps the original integer row labels (the first row of each
   group is NaN).  Line 194 then evaluates, per game `g`,
   `clv.loc[clv.index.get_level_values(0)==g].mean()`: on a flat integer
   index, `get_level_values(0)` is the integer labels themselves, and a
   Python `==` between an integer label and the game-name string is
   always False, so the selection is empty and its (NaN-skipping) mean
   is NaN.  Lines 196-199 keep a row only when `CLV_OK > 0` (OVER) or
   `CLV_OK < 0` (UNDER); both comparisons are False on NaN.
   ==================================================================== -/

/-- A pandas row label: either an integer positional label or a string.
Python `==` between an int label and a str label is False. -/
inductive PIndexLabel where
  | intLabel (n : ℕ)
  | strLabel (s : String)
deriving DecidableEq, Repr

/-- Python `==` on row labels: int and str labels never compare equal. -/
def labelEq : PIndexLabel → PIndexLabel → Bool
  | .intLabel a, .intLabel b => a == b
  | .strLabel a, .strLabel b => a == b
  | _, _ => false

/-- A `line_history` row: (Game, Line); the integer row label is the
position in the list. -/
def LineHistory : Type := List (String × ℚ)

/-- Lines 188-191: one (Game, Market_Total) row is appended to the line
history for every game of the current slate before the diff is taken. -/
def record_slate (hist slate : List (String × ℚ)) : List (String × ℚ) :=
  hist ++ slate

/-- `line_history.groupby("Game").Line.diff()` (line 193): at position
`i`, the Line minus the Line of the previous row of the same game, NaN
(`none`) when no previous same-game row exists; original integer row
labels are preserved (here: the position). -/
def group_diff (hist : List (String × ℚ)) : List (Option ℚ) :=
  (List.range hist.length).map (fun i =>
    match hist[i]? with
    | some (g, l) =>
        match ((hist.take i).filter (fun p => p.1 == g)).getLast? with
        | some (_, lp) => some (l - lp)
        | none => none
    | none => none)

/-- `clv.loc[clv.index.get_level_values(0)==g]` (line 194): select the
diff entries whose integer row label compares equal (by Python `==`) to
the game-name string `g`. -/
def clv_select (hist : List (String × ℚ)) (g : String) : List (Option ℚ) :=
  ((group_diff hist).enum.filter
      (fun p => labelEq (.intLabel p.1) (.strLabel g))).map Prod.snd

/-- `Series.mean()` with pandas' default NaN-skipping: NaN (`none`) when
no non-NaN value remains. -/
def series_mean (xs : List (Option ℚ)) : Option ℚ :=
  let vs := xs.filterMap id
  if vs.length = 0 then none else some (vs.sum / vs.length)

/-- `df["CLV_OK"] = df.Game.map(lambda g: clv.loc[...].mean())` (line 194). -/
def clv_ok (hist : List (String × ℚ)) (g : String) : Option ℚ :=
  series_mean (clv_select hist g)

/-- Pandas `x > 0` where `x` may be NaN: False on NaN. -/
def option_pos : Option ℚ → Bool
  | none => false
  | some c => decide (0 < c)

/-- Pandas `x < 0` where `x` may be NaN: False on NaN. -/
def option_neg : Option ℚ → Bool
  | none => false
  | some c => decide (c < 0)

/-- Lines 196-199: a game row survives the CLV filter iff
`(Side=="OVER") & (CLV_OK > 0)` or `(Side=="UNDER") & (CLV_OK < 0)`. -/
def clv_retained (hist : List (String × ℚ)) (g side : String) : Bool :=
  (side == "OVER" && option_pos (clv_ok hist g)) ||
  (side == "UNDER" && option_neg (clv_ok hist g))

/-- Stated from the claim's words, for comparison with the code: the
most recent observed line movement for game `g`, the difference between
its last two recorded lines (`none` when fewer than two observations
exist). -/
def most_recent_movement (hist : List (String × ℚ)) (g : String) : Option ℚ :=
  match ((hist.filter (fun p => p.1 == g)).map Prod.snd).reverse with
  | a :: b :: _ => some (a - b)
  | _ => none

/-- The concrete failing input for the CLV gate: one prior observation
of the game at 140, the current render records 143 (latest movement +3). -/
def bug_history : List (String × ℚ) :=
  record_slate [("Duke vs UNC", 140)] [("Duke vs UNC", 143)]

/-- A three-row bet log (two wins, one loss) used as concrete input. -/
def sample_log : List BetRow :=
  [⟨"G1", "OVER", 140, 3/5, 5, 91/100, "W"⟩,
   ⟨"G2", "UNDER", 145, 58/100, 4, 91/100, "W"⟩,
   ⟨"G3", "OVER", 150, 57/100, 3, -1, "L"⟩]

/-- A two-game slate used as concrete input for the calibration claim. -/
def sample_slate : List (ℚ × ℚ) := [(150, 140), (130, 145)]

/- ====================================================================
   Theorems
   ==================================================================== -/

theorem sum_map_sub_const (l : List (ℚ × ℚ)) (b : ℚ) :
    (l.map (fun r => r.1 - b)).sum = (l.map Prod.fst).sum - l.length * b := by
  induction l with
  | nil => simp
  | cons x xs ih =>
      simp only [List.map_cons, List.sum_cons, List.length_cons, ih]
      push_cast
      ring

/-- C1.  Mean-alignment calibration: for a non-empty slate, after line
166 subtracts the slate bias from every projection, the mean of the
calibrated projections equals the mean of the market totals. -/
theorem calibration_mean_aligns (slate : List (ℚ × ℚ)) (h : slate ≠ []) :
    slateMean ((calibrate slate).map Prod.fst)
      = slateMean (slate.map Prod.snd) := by
  have hl : slate.length ≠ 0 := fun hl => h (List.length_eq_zero.mp hl)
  have hn : (slate.length : ℚ) ≠ 0 := Nat.cast_ne_zero.mpr hl
  have hmap : (calibrate slate).map Prod.fst
      = slate.map (fun r =>
          r.1 - (slateMean (slate.map Prod.fst) - slateMean (slate.map Prod.snd))) := by
    simp [calibrate, List.map_map, Function.comp]
  rw [hmap]
  unfold slateMean
  rw [sum_map_sub_const]
  simp only [List.length_map]
  field_simp

/-- Witness for C1 at the two-game slate `[(150, 140), (130, 145)]`. -/
theorem calibration_mean_aligns_witness :
    sample_slate ≠ [] ∧
      slateMean ((calibrate sample_slate).map Prod.fst)
        = slateMean (sample_slate.map Prod.snd) :=
  ⟨by decide, calibration_mean_aligns sample_slate (by decide)⟩

theorem clv_select_eq_nil (hist : List (String × ℚ)) (g : String) :
    clv_select hist g = [] := by
  unfold clv_select
  have h : ((group_diff hist).enum.filter
      (fun p => labelEq (.intLabel p.1) (.strLabel g))) = [] := by
    rw [List.filter_eq_nil_iff]
    intro a _
    simp [labelEq]
  rw [h]
  rfl

theorem clv_ok_eq_none (hist : List (String × ℚ)) (g : String) :
    clv_ok hist g = none := by
  rw [clv_ok, clv_select_eq_nil]
  rfl

/-- C2.  The CLV gate never retains any game: the grouped diff keeps
integer row labels, the selection compares those labels against the
game-name string and is therefore always empty, so `CLV_OK` is NaN and
both directional comparisons are False.  In particular, for the concrete
history whose most recent movement is +3 (agreeing with OVER), the game
is still dropped — contradicting the claimed behavior. -/
theorem clv_gate_drops_confirmed_games :
    (∀ (hist : List (String × ℚ)) (g side : String),
        clv_retained hist g side = false)
    ∧ most_recent_movement bug_history "Duke vs UNC" = some 3
    ∧ clv_retained bug_history "Duke vs UNC" "OVER" = false := by
  have hgen : ∀ (hist : List (String × ℚ)) (g side : String),
      clv_retained hist g side = false := by
    intro hist g side
    simp [clv_retained, clv_ok_eq_none, option_pos, option_neg]
  refine ⟨hgen, ?_, hgen _ _ _⟩
  show some ((143 : ℚ) - 140) = some 3
  norm_num

theorem abs_neg_110 : |(-110 : ℝ)| = 110 := by norm_num

theorem edge_of_52 : edge_of (13/25 : ℝ) = -(8/21) := by
  unfold edge_of implied_prob ODDS
  rw [abs_neg_110]
  norm_num

/-- C3 counterexample: a game with Prob = 0.52 (so Edge = −8/21 < 0) at
thresholds min_prob = 52, min_edge = 0 satisfies the claimed gate
(52 ≥ 52 and |Edge| ≥ 0) but is dropped by the code's filter, which
requires the signed Edge to be ≥ min_edge. -/
theorem bets_filter_signed_edge_counterexample :
    claimedBetGate (13/25) (edge_of (13/25)) 52 0
    ∧ betsFilter [((13/25 : ℝ), edge_of (13/25))] 52 0 = [] := by
  constructor
  · refine ⟨by norm_num, ?_⟩
    rw [edge_of_52]
    norm_num
  · simp only [betsFilter]
    simp
    intro _
    rw [edge_of_52]
    norm_num

/-- C3 amended: a row survives the filter of lines 207-210 iff it is in
the slate, its probability × 100 is at least min_prob, and its signed
edge (not its absolute value) is at least min_edge. -/
theorem bets_filter_mem (rows : List (ℝ × ℝ)) (r : ℝ × ℝ) (minP minE : ℝ) :
    r ∈ betsFilter rows minP minE
      ↔ r ∈ rows ∧ r.1 * 100 ≥ minP ∧ r.2 ≥ minE := by
  unfold betsFilter
  rw [List.mem_filter]
  simp

/-- C4 counterexample: at p = 1 the Kelly stake percentage of line 182
is 100, far above the claimed cap of 5.0 (no such cap exists in the
code). -/
theorem kelly_pct_exceeds_five : kelly_pct 1 = 100 ∧ 5 < kelly_pct 1 := by
  have h : kelly_pct 1 = 100 := by
    unfold kelly_pct kelly ODDS
    rw [abs_neg_110]
    norm_num
  exact ⟨h, by rw [h]; norm_num⟩

/-- C4 amended: for p in [0, 1] at the fixed −110 odds, the stake
percentage is never negative and never exceeds 100 (attained at p = 1);
the code has no 5% cap. -/
theorem kelly_pct_range (p : ℝ) (h0 : 0 ≤ p) (h1 : p ≤ 1) :
    0 ≤ kelly_pct p ∧ kelly_pct p ≤ 100 := by
  have hk : kelly p ODDS = max ((p * (100 / 110) - (1 - p)) / (100 / 110)) 0 := by
    unfold kelly ODDS
    rw [abs_neg_110]
  unfold kelly_pct
  rw [hk]
  constructor
  · exact mul_nonneg (le_max_right _ _) (by norm_num)
  · have hle : max ((p * (100 / 110) - (1 - p)) / (100 / 110)) 0 ≤ 1 := by
      apply max_le _ (by norm_num)
      rw [div_le_one (by norm_num : (0 : ℝ) < 100 / 110)]
      nlinarith
    nlinarith [hle]

/-- Witness for C4's amended range theorem at p = 1/2. -/
theorem kelly_pct_range_witness :
    ((0 : ℝ) ≤ 1/2 ∧ (1/2 : ℝ) ≤ 1)
    ∧ (0 ≤ kelly_pct (1/2) ∧ kelly_pct (1/2) ≤ 100) :=
  ⟨⟨by norm_num, by norm_num⟩, kelly_pct_range (1/2) (by norm_num) (by norm_num)⟩

/-- C5.  Probability symmetry: for any line, projection and positive
standard deviation, the over- and under-probabilities of lines 69-73 sum
to exactly 1. -/
theorem prob_over_add_prob_under (line proj std : ℝ) (h : 0 < std) :
    prob_over line proj std + prob_under line proj std = 1 := by
  unfold prob_over prob_under
  ring

/-- Witness for C5 at line 140, projection 145, σ = 10. -/
theorem prob_over_add_prob_under_witness :
    (0 : ℝ) < 10 ∧ prob_over 140 145 10 + prob_under 140 145 10 = 1 :=
  ⟨by norm_num, prob_over_add_prob_under 140 145 10 (by norm_num)⟩

/-- C6.  The reported probability of line 180 is the maximum of the two
directional probabilities and is at least 1/2 (they sum to 1), and the
side of line 179 is "OVER" exactly when the over-probability is strictly
larger, "UNDER" otherwise (ties included). -/
theorem reported_prob_and_side (line proj std : ℝ) :
    reportedProb (prob_over line proj std) (prob_under line proj std)
        = max (prob_over line proj std) (prob_under line proj std)
    ∧ 1/2 ≤ reportedProb (prob_over line proj std) (prob_under line proj std)
    ∧ (chooseSide (prob_over line proj std) (prob_under line proj std)
          = "OVER" ↔ prob_under line proj std < prob_over line proj std)
    ∧ (chooseSide (prob_over line proj std) (prob_under line proj std)
          = "UNDER" ↔ prob_over line proj std ≤ prob_under line proj std) := by
  have hsum : prob_over line proj std + prob_under line proj std = 1 := by
    unfold prob_over prob_under
    ring
  refine ⟨rfl, ?_, ?_, ?_⟩
  · unfold reportedProb
    rcases le_total (prob_over line proj std) (prob_under line proj std) with h | h
    · rw [max_eq_right h]
      linarith
    · rw [max_eq_left h]
      linarith
  · unfold chooseSide
    by_cases h : prob_under line proj std < prob_over line proj std
    · rw [if_pos h]
      simp [h]
    · rw [if_neg h]
      simp [h]
  · unfold chooseSide
    by_cases h : prob_under line proj std < prob_over line proj std
    · rw [if_pos h]
      constructor
      · intro hs
        exact absurd hs (by decide)
      · intro hle
        exact absurd h (not_lt.mpr hle)
    · rw [if_neg h]
      simp [not_lt.mp h]

/-- C7 counterexample: a displayed row with Kelly_% = 10 has stake 1
unit; pressing WIN appends Units = 0.91, which is not the −110 payout
100/110 = 0.9090…; the code pays 0.91, the claim says 0.909…. -/
theorem log_win_payout_counterexample :
    stake_units 10 = 1
    ∧ (log_win [] "Duke vs UNC" "OVER" 140 (57/100) 5
          (stake_units 10)).map BetRow.units = [91/100]
    ∧ (91/100 : ℚ) ≠ 100/110 := by
  have hs : stake_units 10 = 1 := by
    unfold stake_units pyRound roundHalfEven
    norm_num
  refine ⟨hs, ?_, by norm_num⟩
  rw [hs]
  simp [log_win]

/-- C7 amended: the WIN button appends one row whose Units is the stake
times 0.91 (the code's rounded payout factor, not the exact −110 payout
100/110) and the LOSS button appends one row whose Units is the negated
stake; neither touches the earlier rows. -/
theorem grading_appends (log : List BetRow) (g s : String)
    (line prob edge stake : ℚ) :
    (log_win log g s line prob edge stake).getLast?
        = some ⟨g, s, line, prob, edge, stake * (91/100), "W"⟩
    ∧ (log_win log g s line prob edge stake).dropLast = log
    ∧ (log_loss log g s line prob edge stake).getLast?
        = some ⟨g, s, line, prob, edge, -stake, "L"⟩
    ∧ (log_loss log g s line prob edge stake).dropLast = log := by
  unfold log_win log_loss
  exact ⟨List.getLast?_concat _, List.dropLast_concat,
    List.getLast?_concat _, List.dropLast_concat⟩

/-- C8 counterexample: with 50 logged bets, nonnegative ROI and a stored
model weight of 0.75 (reachable from the initial 0.6 by three positive
steps), the pair written back is again (0.75, 0.25): the model weight
moved by 0, not by +0.05 or −0.05. -/
theorem weight_update_zero_movement :
    weight_update 50 0 (3/4) = some (3/4, 1/4)
    ∧ ((3/4 : ℚ) - 3/4 ≠ 5/100 ∧ (3/4 : ℚ) - 3/4 ≠ -(5/100)) := by
  constructor
  · unfold weight_update adjust_model_weight
    norm_num
  · norm_num

/-- C8 amended: once at least 50 bets are logged, the render writes back
the pair (w', 1 − w') where w' moves the model weight by ±0.05 clamped
to [0.4, 0.75] (down when ROI < 0, up otherwise); whenever the stored
model weight lies in [0.4, 0.75] — as the initial 0.6 does — the written
model weight stays in [0.4, 0.75] and the pair sums to 1. -/
theorem weight_update_spec (total : ℕ) (r w : ℚ)
    (htot : 50 ≤ total) (hlo : 4/10 ≤ w) (hhi : w ≤ 75/100) :
    weight_update total r w
        = some (adjust_model_weight r w, 1 - adjust_model_weight r w)
    ∧ 4/10 ≤ adjust_model_weight r w
    ∧ adjust_model_weight r w ≤ 75/100
    ∧ adjust_model_weight r w + (1 - adjust_model_weight r w) = 1
    ∧ (r < 0 → adjust_model_weight r w = max (w - 5/100) (4/10))
    ∧ (0 ≤ r → adjust_model_weight r w = min (w + 5/100) (75/100))
    ∧ initial_weights.1 + initial_weights.2 = 1
    ∧ 4/10 ≤ initial_weights.1 ∧ initial_weights.1 ≤ 75/100 := by
  refine ⟨by rw [weight_update, if_pos htot], ?_, ?_, by ring, ?_, ?_,
    by norm_num [initial_weights], by norm_num [initial_weights],
    by norm_num [initial_weights]⟩
  · unfold adjust_model_weight
    split
    · exact le_max_right _ _
    · exact le_min (by linarith) (by norm_num)
  · unfold adjust_model_weight
    split
    · exact max_le (by linarith) (by norm_num)
    · exact min_le_right _ _
  · intro hr
    rw [adjust_model_weight, if_pos hr]
  · intro hr
    rw [adjust_model_weight, if_neg (not_lt.mpr hr)]

/-- Witness for C8's amended theorem at total = 50, ROI = −1, stored
weight 0.6. -/
theorem weight_update_spec_witness :
    (50 ≤ 50 ∧ (4/10 : ℚ) ≤ 6/10 ∧ (6/10 : ℚ) ≤ 75/100)
    ∧ weight_update 50 (-1) (6/10)
        = some (adjust_model_weight (-1) (6/10),
            1 - adjust_model_weight (-1) (6/10))
    ∧ 4/10 ≤ adjust_model_weight (-1) (6/10) :=
  ⟨⟨le_refl 50, by norm_num, by norm_num⟩,
    (weight_update_spec 50 (-1) (6/10) (le_refl 50)
      (by norm_num) (by norm_num)).1,
    (weight_update_spec 50 (-1) (6/10) (le_refl 50)
      (by norm_num) (by norm_num)).2.1⟩

theorem pyRound_zero (n : ℕ) : pyRound 0 n = 0 := by
  unfold pyRound roundHalfEven
  norm_num

/-- C9 counterexample: on a log of 3 bets with 2 wins the displayed
Win % is `round(200/3, 1) = 66.7` (line 276 rounds to one decimal), not
`round(200/3, 2) = 66.67` as the claim states. -/
theorem win_pct_display_rounding_counterexample :
    win_pct sample_log = 200/3
    ∧ win_pct_display sample_log = 667/10
    ∧ pyRound (200/3) 2 = 6667/100
    ∧ (667/10 : ℚ) ≠ 6667/100 := by
  have hw : win_pct sample_log = 200/3 := by
    have h2 : wins_count sample_log = 2 := by
      simp [wins_count, sample_log]
    have h3 : total_bets sample_log = 3 := by
      simp [total_bets, sample_log]
    rw [win_pct, h2, h3]
    norm_num
  have hfloor1 : ⌊(200/3 : ℚ) * 10 ^ 1⌋ = 666 := by
    rw [Int.floor_eq_iff]
    norm_num
  have hfloor2 : ⌊(200/3 : ℚ) * 10 ^ 2⌋ = 6666 := by
    rw [Int.floor_eq_iff]
    norm_num
  refine ⟨hw, ?_, ?_, by norm_num⟩
  · rw [win_pct_display, hw]
    unfold pyRound roundHalfEven
    rw [hfloor1]
    norm_num
  · unfold pyRound roundHalfEven
    rw [hfloor2]
    norm_num

/-- C9 amended: on an empty log both metrics are exactly 0 (the guard
of lines 259-260 performs no division); on a non-empty log the displayed
ROI % is `round(units/total×100, 2)` while the displayed Win % is
`round(wins/total×100, 1)` — one decimal, not two. -/
theorem performance_metrics_spec (log : List BetRow) :
    (total_bets log = 0 → roi log = 0 ∧ win_pct log = 0
        ∧ roi_display log = 0 ∧ win_pct_display log = 0)
    ∧ (total_bets log ≠ 0 →
        roi_display log = pyRound (units_sum log / total_bets log * 100) 2
        ∧ win_pct_display log
            = pyRound ((wins_count log : ℚ) / total_bets log * 100) 1) := by
  constructor
  · intro h
    have h1 : roi log = 0 := by rw [roi, if_pos h]
    have h2 : win_pct log = 0 := by rw [win_pct, if_pos h]
    exact ⟨h1, h2, by rw [roi_display, h1, pyRound_zero],
      by rw [win_pct_display, h2, pyRound_zero]⟩
  · intro h
    exact ⟨by rw [roi_display, roi, if_neg h],
      by rw [win_pct_display, win_pct, if_neg h]⟩

/-- Witness for C9's amended theorem on the three-row sample log. -/
theorem performance_metrics_spec_witness :
    total_bets sample_log ≠ 0
    ∧ win_pct_display sample_log
        = pyRound ((wins_count sample_log : ℚ) / total_bets sample_log * 100) 1 :=
  ⟨by simp [total_bets, sample_log],
    ((performance_metrics_spec sample_log).2
      (by simp [total_bets, sample_log])).2⟩

/-- C10.  When the calibrated projection equals the market total, the
over- and under-probabilities of lines 69-73 are both exactly 1/2 and
line 179 selects "UNDER", since "OVER" requires a strictly larger
over-probability. -/
theorem midpoint_tie (line std : ℝ) :
    prob_over line line std = 1/2
    ∧ prob_under line line std = 1/2
    ∧ chooseSide (prob_over line line std) (prob_under line line std)
        = "UNDER" := by
  have hz : (line - line) / std = 0 := by
    rw [sub_self, zero_div]
  have herf : erf 0 = 0 := by
    unfold erf
    rw [intervalIntegral.integral_same, mul_zero]
  have hcdf : normal_cdf 0 = 1/2 := by
    unfold normal_cdf
    rw [zero_div, herf]
    norm_num
  have hpo : prob_over line line std = 1/2 := by
    unfold prob_over
    rw [hz, hcdf]
    norm_num
  have hpu : prob_under line line std = 1/2 := by
    unfold prob_under
    rw [hz, hcdf]
  refine ⟨hpo, hpu, ?_⟩
  unfold chooseSide
  rw [hpo, hpu, if_neg (lt_irrefl _)]
